import Mathlib

/-!
Shallow embedding of the registration tester agent
(`src/registration_tester_agent.py`, `src/tester_agent/config.py`,
`src/tester_agent/browser_flow.py`, `src/tester_agent/qwen_reasoner.py`,
`src/tester_agent/runner.py`).

Pure logic is translated function-by-function from the Python source.
External effects (Playwright page queries, the Qwen provider call,
Faker/uuid randomness, wall-clock timestamps, file paths) are modelled
as explicit inputs to the translated functions.
-/

namespace TesterAgent

/-- Case folding of one character under Python `str.lower`, covering the
alphabets of the reasoner's marker strings: ASCII `A`-`Z` and the
Cyrillic block `А`-`Я` (U+0410-U+042F) fold by +32, `Ѐ`-`Џ`
(U+0400-U+040F, including `Ё`) fold by +80.  No other Unicode character
folds to a character of the markers in a way that survives contiguous
substring matching (e.g. `İ` lowers to `i` plus a combining dot, which
breaks any marker match). -/
def pyLowerChar (c : Char) : Char :=
  if 'A' ≤ c ∧ c ≤ 'Z' then Char.ofNat (c.toNat + 32)
  else if '\u0410' ≤ c ∧ c ≤ '\u042f' then Char.ofNat (c.toNat + 32)
  else if '\u0400' ≤ c ∧ c ≤ '\u040f' then Char.ofNat (c.toNat + 80)
  else c

/-- Models Python `str.lower`. -/
def pyLower (s : String) : String := String.mk (s.data.map pyLowerChar)

/-- Characters removed by Python `str.strip()` and ignored around
`int(str)` input: the Unicode whitespace set of `str.isspace` (ASCII
whitespace, the separator controls U+001C-U+001F, NEL, NBSP, Ogham
space, the U+2000-U+200A spaces, line/paragraph separators, narrow
no-break space, medium mathematical space, ideographic space). -/
def pyIsSpace (c : Char) : Bool :=
  c == ' ' || c == '\t' || c == '\n' || c == '\r' || c == '\x0b' || c == '\x0c'
  || c == '\x1c' || c == '\x1d' || c == '\x1e' || c == '\x1f'
  || c == '\x85' || c == '\xa0' || c == '\u1680'
  || decide ('\u2000' ≤ c ∧ c ≤ '\u200a')
  || c == '\u2028' || c == '\u2029' || c == '\u202f' || c == '\u205f' || c == '\u3000'

/-- Models Python `str.strip()` with no argument. -/
def pyStrip (s : String) : String :=
  String.mk (((s.data.dropWhile pyIsSpace).reverse.dropWhile pyIsSpace).reverse)

/-- `prefixAt needle hay` holds when `needle` occurs at the start of `hay`. -/
def prefixAt : List Char → List Char → Bool
  | [], _ => true
  | _ :: _, [] => false
  | n :: ns, h :: hs => n == h && prefixAt ns hs

/-- `containsSeq needle hay` holds when `needle` occurs contiguously in `hay`. -/
def containsSeq (needle : List Char) : List Char → Bool
  | [] => prefixAt needle []
  | h :: hs => prefixAt needle (h :: hs) || containsSeq needle hs

/-- Models the Python substring test `needle in hay`. -/
def strContains (hay needle : String) : Bool := containsSeq needle.data hay.data

/-- `Selectors` dataclass from `src/tester_agent/config.py`. -/
structure Selectors where
  email : String
  password : String
  name : String
  submit : String
  error : String
deriving Repr, DecidableEq

/-- Field defaults of the `Selectors` dataclass. -/
def defaultSelectors : Selectors :=
  { email := "input[name=\"email\"]"
    password := "input[name=\"password\"]"
    name := "input[name=\"name\"]"
    submit := "button[type=\"submit\"]"
    error := ".error-message, .alert-danger, [role='alert']" }

/-- `QwenConfig` dataclass from `src/tester_agent/config.py`. -/
structure QwenConfig where
  enabled : Bool
  model_server : String
  model : String
  api_key : String
  max_tokens : Nat
  enable_thinking : Bool
deriving Repr, DecidableEq

/-- Field defaults of the `QwenConfig` dataclass. -/
def defaultQwenConfig : QwenConfig :=
  { enabled := false
    model_server := "http://localhost:11434/v1"
    model := "Qwen/Qwen3-14B"
    api_key := "EMPTY"
    max_tokens := 512
    enable_thinking := true }

/-- `AgentConfig` dataclass from `src/tester_agent/config.py`. -/
structure AgentConfig where
  base_url : String
  register_path : String
  dashboard_url_pattern : String
  max_retries : Nat
  retry_delay_seconds : Nat
  timeout_ms : Nat
  headless : Bool
  locale : String
  video_dir : String
  artifact_dir : String
  selectors : Selectors
  qwen : QwenConfig
deriving Repr, DecidableEq

/-- `AgentConfig` with every defaulted field at its dataclass default. -/
def defaultAgentConfig (base_url : String) : AgentConfig :=
  { base_url := base_url
    register_path := "/en/user/register"
    dashboard_url_pattern := "/en/generate"
    max_retries := 3
    retry_delay_seconds := 3
    timeout_ms := 30000
    headless := true
    locale := "en_US"
    video_dir := "test_recordings"
    artifact_dir := "artifacts"
    selectors := defaultSelectors
    qwen := defaultQwenConfig }

/-- The DOM counts queried by `BrowserRegistrationFlow.verify_dashboard`
(`src/tester_agent/browser_flow.py`, lines 103-126).  Each field is the
result of one Playwright `locator(...).count()` call:
`modelDropdownCount` for `div.model-select.dropdown`,
`menuCountInFirst` for `.dropdown-menu` inside the first such container,
`directChildrenCount` for `:scope > *` inside the first menu,
`fallbackTagCount` for `li, a, button, div` inside the first menu, and
`generateButtonCount` for `button#generateButton`. -/
structure PageState where
  modelDropdownCount : Nat
  menuCountInFirst : Nat
  directChildrenCount : Nat
  fallbackTagCount : Nat
  generateButtonCount : Nat
deriving Repr, DecidableEq

/-- Result dict of `verify_dashboard`.  `reason` is `none` when the dict
has no `"reason"` key (the `ok = True` branch). -/
structure DashboardChecks where
  ok : Bool
  reason : Option String
  model_select_dropdown_exists : Bool
  dropdown_menu_count : Nat
  dropdown_item_count : Nat
  generate_button_exists : Bool
deriving Repr, DecidableEq

/-- Sentence appended when `div.model-select.dropdown` is absent. -/
def missingDropdownMsg : String := "Missing `div.model-select.dropdown`."

/-- Sentence appended when no `.dropdown-menu` was found in the container. -/
def missingMenuMsg : String := "Missing `.dropdown-menu` inside model select container."

/-- Sentence appended when fewer than two items were counted in the menu. -/
def fewItemsMsg : String := "Expected multiple elements inside `.dropdown-menu`."

/-- Sentence appended when `button#generateButton` is absent. -/
def missingButtonMsg : String := "Missing `button#generateButton`."

/-- Translation of `BrowserRegistrationFlow.verify_dashboard`
(`src/tester_agent/browser_flow.py`, lines 103-154).  When the container
is absent the menu and item counts stay `0`, exactly as the Python locals
do; the zero-direct-children fallback to the tag-based count is kept. -/
def verify_dashboard (page : PageState) : DashboardChecks :=
  let exists_model_dropdown : Bool := decide (0 < page.modelDropdownCount)
  let generate_button_exists : Bool := decide (0 < page.generateButtonCount)
  let dropdown_menu_count : Nat :=
    if exists_model_dropdown then page.menuCountInFirst else 0
  let dropdown_item_count : Nat :=
    if exists_model_dropdown && decide (0 < dropdown_menu_count) then
      (if page.directChildrenCount = 0 then page.fallbackTagCount
       else page.directChildrenCount)
    else 0
  let ok : Bool :=
    exists_model_dropdown && decide (0 < dropdown_menu_count)
      && decide (2 ≤ dropdown_item_count) && generate_button_exists
  if ok then
    { ok := true
      reason := none
      model_select_dropdown_exists := true
      dropdown_menu_count := dropdown_menu_count
      dropdown_item_count := dropdown_item_count
      generate_button_exists := true }
  else
    let problems : List String :=
      (if !exists_model_dropdown then [missingDropdownMsg] else []) ++
      (if dropdown_menu_count = 0 then [missingMenuMsg] else []) ++
      (if dropdown_item_count < 2 then [fewItemsMsg] else []) ++
      (if !generate_button_exists then [missingButtonMsg] else [])
    { ok := false
      reason := some (String.intercalate " " problems)
      model_select_dropdown_exists := exists_model_dropdown
      dropdown_menu_count := dropdown_menu_count
      dropdown_item_count := dropdown_item_count
      generate_button_exists := generate_button_exists }

/-- The random draws consumed by one `generate_user_data` call: the Faker
name and password and the 32 hex characters of `uuid4().hex`. -/
structure FakerDraw where
  fakeName : String
  uuidHex : String
  fakePassword : String
deriving Repr, DecidableEq

/-- The identity dict returned by `generate_user_data`. -/
structure UserData where
  name : String
  email : String
  password : String
deriving Repr, DecidableEq

/-- Translation of `BrowserRegistrationFlow.generate_user_data`
(`src/tester_agent/browser_flow.py`, lines 26-31); the email is the
f-string `test+` + the first 10 characters of the uuid hex +
`@example.com`. -/
def generate_user_data (d : FakerDraw) : UserData :=
  { name := d.fakeName
    email := "test+" ++ d.uuidHex.take 10 ++ "@example.com"
    password := d.fakePassword }

/-- The result dict built by `BrowserRegistrationFlow.run_attempt`.
`final_url` and `dashboard_checks` are `none` when the corresponding key
was never set (resp. left as the empty dict); the annotation fields
`next_action`, `next_action_source` and `framework_error` are added later
by the runner loop. -/
structure AttemptResult where
  attempt : Nat
  timestamp : String
  user_email : String
  user_name : String
  success : Bool
  reason : Option String
  final_url : Option String
  dashboard_checks : Option DashboardChecks
  video_path : Option String
  next_action : Option String
  next_action_source : Option String
  framework_error : Option String
deriving Repr, DecidableEq

/-- How the browser environment behaves during one attempt: either a
`PlaywrightTimeoutError` or another exception escapes the `try` block
(with `str(exc)` as payload), or the flow reaches the classification
step with a final URL, a dashboard page state, and the result of
`_safe_text(page, selectors.error)`. -/
inductive AttemptEnv where
  | timeoutExc (msg : String)
  | otherExc (msg : String)
  | completed (finalUrl : String) (page : PageState) (errorText : Option String)
deriving Repr, DecidableEq

/-- Default reason when no redirect to the dashboard happened and the
error selector produced nothing truthy. -/
def noRedirectMsg : String := "Registration did not redirect to dashboard URL."

/-- Translation of `BrowserRegistrationFlow.run_attempt`
(`src/tester_agent/browser_flow.py`, lines 36-101).  `urlMatches` models
the compiled `re.search(config.dashboard_url_pattern, ·)` test,
`timestamp` the `datetime.now()` call and `video_path` the finalized
video file name; `env` is the observed browser behaviour. -/
def run_attempt (urlMatches : String → Bool) (attempt : Nat) (timestamp : String)
    (user : UserData) (video_path : Option String) (env : AttemptEnv) : AttemptResult :=
  let base : AttemptResult :=
    { attempt := attempt
      timestamp := timestamp
      user_email := user.email
      user_name := user.name
      success := false
      reason := none
      final_url := none
      dashboard_checks := none
      video_path := video_path
      next_action := none
      next_action_source := none
      framework_error := none }
  match env with
  | .timeoutExc msg => { base with reason := some ("Timeout: " ++ msg) }
  | .otherExc msg => { base with reason := some ("Unhandled error: " ++ msg) }
  | .completed current_url page errorText =>
    let is_dashboard_url := urlMatches current_url
    let dashboard_checks := verify_dashboard page
    let success := is_dashboard_url && dashboard_checks.ok
    let reason : Option String :=
      if !is_dashboard_url then
        some (match errorText with
          | some t => if t = "" then noRedirectMsg else t
          | none => noRedirectMsg)
      else if !dashboard_checks.ok then
        some (dashboard_checks.reason.getD "Dashboard checks failed.")
      else none
    { base with
        success := success
        reason := reason
        final_url := some current_url
        dashboard_checks := some dashboard_checks }

/-- JSON values as produced by Python `json.loads`, restricted to the
fragment without float literals (no claim depends on float semantics;
the parser below rejects them). -/
inductive Json where
  | null
  | bool (b : Bool)
  | num (n : Int)
  | str (s : String)
  | arr (elems : List Json)
  | obj (members : List (String × Json))
deriving Repr, BEq

/-- JSON whitespace accepted between tokens by `json.loads`. -/
def jsonWs (c : Char) : Bool := c == ' ' || c == '\t' || c == '\n' || c == '\r'

/-- Drop leading JSON whitespace. -/
def skipWs : List Char → List Char
  | [] => []
  | c :: cs => if jsonWs c then skipWs cs else c :: cs

/-- Value of one hex digit, if any. -/
def hexVal (c : Char) : Option Nat :=
  if '0' ≤ c ∧ c ≤ '9' then some (c.toNat - '0'.toNat)
  else if 'a' ≤ c ∧ c ≤ 'f' then some (c.toNat - 'a'.toNat + 10)
  else if 'A' ≤ c ∧ c ≤ 'F' then some (c.toNat - 'A'.toNat + 10)
  else none

/-- Value of one decimal digit, if any. -/
def digitVal (c : Char) : Option Nat :=
  if '0' ≤ c ∧ c ≤ '9' then some (c.toNat - '0'.toNat) else none

/-- Body of a JSON string literal after the opening quote: strict-mode
`json.loads` semantics (escape sequences, raw control characters
rejected; surrogate pairs are outside the modelled fragment). -/
def parseStringBody : List Char → List Char → Option (String × List Char)
  | _, [] => none
  | acc, '"' :: rest => some (String.mk acc.reverse, rest)
  | acc, '\\' :: rest =>
    match rest with
    | [] => none
    | e :: rest2 =>
      if e == '"' then parseStringBody ('"' :: acc) rest2
      else if e == '\\' then parseStringBody ('\\' :: acc) rest2
      else if e == '/' then parseStringBody ('/' :: acc) rest2
      else if e == 'b' then parseStringBody ('\x08' :: acc) rest2
      else if e == 'f' then parseStringBody ('\x0c' :: acc) rest2
      else if e == 'n' then parseStringBody ('\n' :: acc) rest2
      else if e == 'r' then parseStringBody ('\r' :: acc) rest2
      else if e == 't' then parseStringBody ('\t' :: acc) rest2
      else if e == 'u' then
        match rest2 with
        | h1 :: h2 :: h3 :: h4 :: rest3 =>
          match hexVal h1, hexVal h2, hexVal h3, hexVal h4 with
          | some a, some b, some c, some d =>
            let n := ((a * 16 + b) * 16 + c) * 16 + d
            if 0xD800 ≤ n ∧ n ≤ 0xDFFF then none
            else parseStringBody (Char.ofNat n :: acc) rest3
          | _, _, _, _ => none
        | _ => none
      else none
  | acc, c :: rest => if c.toNat < 32 then none else parseStringBody (c :: acc) rest

/-- Greedily consume decimal digits, extending the accumulator. -/
def takeDigits : Nat → List Char → Nat × List Char
  | acc, [] => (acc, [])
  | acc, c :: cs =>
    match digitVal c with
    | some d => takeDigits (acc * 10 + d) cs
    | none => (acc, c :: cs)

/-- Is the next character the start of a float continuation? -/
def headIsFloatMark : List Char → Bool
  | [] => false
  | c :: _ => c == '.' || c == 'e' || c == 'E'

/-- Integer literal per the JSON grammar `-? (0 | [1-9][0-9]*)`; a float
continuation makes the parse fail (floats are outside the model). -/
def parseIntLex (cs : List Char) : Option (Int × List Char) :=
  let p : Bool × List Char :=
    match cs with
    | '-' :: rest => (true, rest)
    | _ => (false, cs)
  match p.2 with
  | '0' :: rest =>
    if headIsFloatMark rest then none
    else some (0, rest)
  | c :: rest =>
    match digitVal c with
    | some d =>
      let t := takeDigits d rest
      if headIsFloatMark t.2 then none
      else some (if p.1 then -(t.1 : Int) else (t.1 : Int), t.2)
    | none => none
  | [] => none

mutual

/-- One JSON value, fuel-bounded recursive descent following the
`json.loads` grammar (minus floats/NaN/Infinity). -/
def parseValue : Nat → List Char → Option (Json × List Char)
  | 0, _ => none
  | fuel + 1, cs =>
    match skipWs cs with
    | [] => none
    | 't' :: 'r' :: 'u' :: 'e' :: rest => some (Json.bool true, rest)
    | 'f' :: 'a' :: 'l' :: 's' :: 'e' :: rest => some (Json.bool false, rest)
    | 'n' :: 'u' :: 'l' :: 'l' :: rest => some (Json.null, rest)
    | '"' :: rest =>
      match parseStringBody [] rest with
      | some (s, rest2) => some (Json.str s, rest2)
      | none => none
    | '\x7b' :: rest => parseObjBody fuel rest
    | '[' :: rest => parseArrBody fuel rest
    | other =>
      match parseIntLex other with
      | some (n, rest) => some (Json.num n, rest)
      | none => none

/-- Object body after the opening brace. -/
def parseObjBody : Nat → List Char → Option (Json × List Char)
  | 0, _ => none
  | fuel + 1, cs =>
    match skipWs cs with
    | '\x7d' :: rest => some (Json.obj [], rest)
    | _ => parseMembers fuel [] cs

/-- One or more `"key": value` members separated by commas. -/
def parseMembers : Nat → List (String × Json) → List Char → Option (Json × List Char)
  | 0, _, _ => none
  | fuel + 1, acc, cs =>
    match skipWs cs with
    | '"' :: rest =>
      match parseStringBody [] rest with
      | none => none
      | some (key, rest2) =>
        match skipWs rest2 with
        | ':' :: rest3 =>
          match parseValue fuel rest3 with
          | none => none
          | some (v, rest4) =>
            match skipWs rest4 with
            | ',' :: rest5 => parseMembers fuel (acc ++ [(key, v)]) rest5
            | '\x7d' :: rest5 => some (Json.obj (acc ++ [(key, v)]), rest5)
            | _ => none
        | _ => none
    | _ => none

/-- Array body after the opening bracket. -/
def parseArrBody : Nat → List Char → Option (Json × List Char)
  | 0, _ => none
  | fuel + 1, cs =>
    match skipWs cs with
    | ']' :: rest => some (Json.arr [], rest)
    | _ => parseElems fuel [] cs

/-- One or more array elements separated by commas. -/
def parseElems : Nat → List Json → List Char → Option (Json × List Char)
  | 0, _, _ => none
  | fuel + 1, acc, cs =>
    match parseValue fuel cs with
    | none => none
    | some (v, rest) =>
      match skipWs rest with
      | ',' :: rest2 => parseElems fuel (acc ++ [v]) rest2
      | ']' :: rest2 => some (Json.arr (acc ++ [v]), rest2)
      | _ => none

end

/-- Models `json.loads` on the whole input: one value, optionally
surrounded by whitespace, with nothing after it (otherwise Python raises
`Extra data`).  The fuel `2 * length + 2` dominates the recursion depth,
since every two fuel steps consume at least one character.  Modelled
fragment: float literals, `NaN`/`Infinity`, and surrogate `\u` escapes
are excluded — such inputs parse to `none` here even where `json.loads`
succeeds; every concrete input settled below lies inside the fragment. -/
def pyJsonLoads (s : String) : Option Json :=
  let cs := s.data
  match parseValue (2 * cs.length + 2) cs with
  | some (v, rest) =>
    match skipWs rest with
    | [] => some v
    | _ => none
  | none => none

/-- Models `re.search(r"\x7b.*\x7d", raw, flags=re.DOTALL)` from
`QwenThinkingReasoner._try_extract_json`: with a greedy `.*` under
DOTALL the leftmost match runs from the first opening brace to the last
closing brace, and exists iff that closing brace lies strictly after the
opening one. -/
def searchBraceSpan (s : String) : Option String :=
  let cs := s.data
  match cs.findIdx? (fun c => c == '\x7b') with
  | none => none
  | some i =>
    match cs.reverse.findIdx? (fun c => c == '\x7d') with
    | none => none
    | some k =>
      let j := cs.length - 1 - k
      if i < j then some (String.mk ((cs.drop i).take (j - i + 1))) else none

/-- Translation of `QwenThinkingReasoner._try_extract_json`
(`src/tester_agent/qwen_reasoner.py`, lines 140-160): strip, try strict
`json.loads` and keep the value only if it is a dict, otherwise apply
the brace-span regex and accept only if that whole span is a dict. -/
def tryExtractJson (raw : String) : Option (List (String × Json)) :=
  let raw := pyStrip raw
  if raw = "" then none
  else
    match pyJsonLoads raw with
    | some (Json.obj kvs) => some kvs
    | _ =>
      match searchBraceSpan raw with
      | none => none
      | some sub =>
        match pyJsonLoads sub with
        | some (Json.obj kvs) => some kvs
        | _ => none

/-- Python dict lookup on a JSON object: duplicate keys in the source
text resolve to the last occurrence, as in `json.loads`. -/
def objGet (kvs : List (String × Json)) (k : String) : Option Json :=
  ((kvs.filter (fun p => p.1 == k)).getLast?).map (fun p => p.2)

/-- Python truthiness of a JSON-derived value. -/
def pyTruthy : Json → Bool
  | Json.null => false
  | Json.bool b => b
  | Json.num n => n != 0
  | Json.str s => s != ""
  | Json.arr xs => !xs.isEmpty
  | Json.obj kvs => !kvs.isEmpty

mutual

/-- Python `repr` of a JSON-derived value (string escaping inside
container reprs is simplified; no claim depends on it). -/
def pyRepr : Json → String
  | Json.null => "None"
  | Json.bool true => "True"
  | Json.bool false => "False"
  | Json.num n => toString n
  | Json.str s => "'" ++ s ++ "'"
  | Json.arr xs => "[" ++ pyReprElems xs ++ "]"
  | Json.obj kvs => "\x7b" ++ pyReprMembers kvs ++ "\x7d"

/-- Comma-joined element reprs. -/
def pyReprElems : List Json → String
  | [] => ""
  | [x] => pyRepr x
  | x :: xs => pyRepr x ++ ", " ++ pyReprElems xs

/-- Comma-joined `key: value` member reprs. -/
def pyReprMembers : List (String × Json) → String
  | [] => ""
  | [p] => "'" ++ p.1 ++ "': " ++ pyRepr p.2
  | p :: ps => "'" ++ p.1 ++ "': " ++ pyRepr p.2 ++ ", " ++ pyReprMembers ps

end

/-- Python `str()` of a JSON-derived value. -/
def pyStr : Json → String
  | Json.str s => s
  | v => pyRepr v

/-- Python `int(str)`: surrounding whitespace, an optional sign, then
decimal digits (digit-group underscores are outside the model). -/
def pyIntOfStr (s : String) : Option Int :=
  let cs := ((s.data.dropWhile pyIsSpace).reverse.dropWhile pyIsSpace).reverse
  let p : Bool × List Char :=
    match cs with
    | '-' :: r => (true, r)
    | '+' :: r => (false, r)
    | _ => (false, cs)
  match p.2 with
  | [] => none
  | _ =>
    if p.2.all (fun c => decide ('0' ≤ c) && decide (c ≤ '9')) then
      let n := p.2.foldl (fun acc c => acc * 10 + (c.toNat - '0'.toNat)) 0
      some (if p.1 then -(n : Int) else (n : Int))
    else none

/-- Python `int()` applied to a JSON-derived value; `Except.error` models
the `ValueError`/`TypeError` raised for non-numeric input, which the
caller's `except` block turns into a heuristic fallback. -/
def pyInt : Json → Except String Int
  | Json.num n => Except.ok n
  | Json.bool true => Except.ok 1
  | Json.bool false => Except.ok 0
  | Json.str s =>
    match pyIntOfStr s with
    | some n => Except.ok n
    | none => Except.error ("invalid literal for int() with base 10: " ++ pyRepr (Json.str s))
  | Json.null => Except.error "int() argument must be a string or a number, not NoneType"
  | Json.arr _ => Except.error "int() argument must be a string or a number, not list"
  | Json.obj _ => Except.error "int() argument must be a string or a number, not dict"

/-- Advisory text for duplicate/already-existing email failures. -/
def duplicateMsg : String :=
  "Email вероятно уже существует, сгенерировать нового пользователя и повторить."

/-- Advisory text for timeout failures. -/
def timeoutMsg : String :=
  "Похоже на медленный ответ сервера, увеличить ожидание и повторить."

/-- Advisory text for CAPTCHA detection. -/
def captchaMsg : String :=
  "Обнаружена CAPTCHA, нужен обход в тестовой среде или ручная проверка."

/-- Advisory text for server errors (HTTP 5xx tokens). -/
def serverErrorMsg : String :=
  "Серверная ошибка, повторить позже и сохранить артефакты."

/-- Advisory text for the generic retry rule. -/
def genericMsg : String :=
  "Повторить с новыми данными и сохранить больше диагностических артефактов."

/-- Translation of `QwenThinkingReasoner._fallback_message`
(`src/tester_agent/qwen_reasoner.py`, lines 172-182): an ordered rule
set pattern-matched against the (already lower-cased) reason. -/
def fallback_message (reason : String) : String :=
  if strContains reason "already" || strContains reason "duplicate"
      || strContains reason "существ" then duplicateMsg
  else if strContains reason "timeout" || strContains reason "timed out" then timeoutMsg
  else if strContains reason "captcha" then captchaMsg
  else if strContains reason "500" || strContains reason "502"
      || strContains reason "503" then serverErrorMsg
  else genericMsg

/-- The decision dict produced by `QwenThinkingReasoner.decide` and its
helpers.  `framework_error` / `raw_response` are `none` when the key is
absent. -/
structure Decision where
  next_action : String
  should_retry : Bool
  retry_delay_seconds : Int
  source : String
  framework_error : Option String
  raw_response : Option String
deriving Repr, DecidableEq

/-- Translation of `QwenThinkingReasoner._fallback`
(`src/tester_agent/qwen_reasoner.py`, lines 162-170).  The reason is
`attempt_result.get("reason") or ""` lower-cased; the retry delay is the
literal `3`. -/
def fallback (attempt_result : AttemptResult) (attempt maxRetries : Nat) : Decision :=
  let reason := pyLower (attempt_result.reason.getD "")
  { next_action := fallback_message reason
    should_retry := decide (attempt < maxRetries)
    retry_delay_seconds := 3
    source := "heuristic"
    framework_error := none
    raw_response := none }

/-- Field construction from a truthy (non-empty) extracted payload
(`src/tester_agent/qwen_reasoner.py`, lines 114-118), returning
`(next_action, should_retry, retry_delay_seconds)`; `Except.error`
models the exception raised by `int(...)` on non-numeric payloads. -/
def parse_payload (kvs : List (String × Json)) : Except String (String × Bool × Int) :=
  let na :=
    match objGet kvs "next_action" with
    | some v => if pyTruthy v then pyStr v else fallback_message ""
    | none => fallback_message ""
  let sr :=
    match objGet kvs "should_retry" with
    | some v => pyTruthy v
    | none => true
  match
    (match objGet kvs "retry_delay_seconds" with
     | some v => pyInt v
     | none => Except.ok 3) with
  | Except.ok n => Except.ok (na, sr, n)
  | Except.error e => Except.error e

/-- Translation of `QwenThinkingReasoner._parse_response`
(`src/tester_agent/qwen_reasoner.py`, lines 111-124).  `if payload:` is
a Python truthiness test, false both when `_try_extract_json` returned
`None` and when it returned an empty dict: only a non-empty payload is
used, otherwise the stripped raw text becomes the advisory. -/
def parse_response (raw : String) : Except String (String × Bool × Int) :=
  match tryExtractJson raw with
  | some (p :: rest) => parse_payload (p :: rest)
  | _ =>
    let t := pyStrip raw
    Except.ok (if t = "" then fallback_message "" else t, true, 3)

/-- Provider behaviour during one `decide` call: the assistant run either
raises (any exception, including hangs surfaced as errors) or returns the
extracted free-text response. -/
inductive ProviderBehavior where
  | raises (msg : String)
  | returns (raw : String)
deriving Repr, DecidableEq

/-- The reasoner state set up by `QwenThinkingReasoner.__init__`:
the enable flag and whether the Qwen-Agent Assistant import/construction
succeeded (with the recorded import error otherwise).  When `enabled`
is true the constructor guarantees `assistantAvailable`, but `decide`
still carries a branch for the unavailable case. -/
structure ReasonerState where
  enabled : Bool
  assistantAvailable : Bool
  assistantError : Option String
deriving Repr, DecidableEq

/-- Translation of `QwenThinkingReasoner.decide`
(`src/tester_agent/qwen_reasoner.py`, lines 31-67). -/
def reasoner_decide (st : ReasonerState) (provider : ProviderBehavior)
    (attempt_result : AttemptResult) (attempt maxRetries : Nat) : Decision :=
  if st.enabled = false then fallback attempt_result attempt maxRetries
  else if st.assistantAvailable = false then
    let fb := fallback attempt_result attempt maxRetries
    { fb with
        source := "heuristic"
        framework_error := some
          (match st.assistantError with
           | some s => if s = "" then "Qwen-Agent Assistant unavailable." else s
           | none => "Qwen-Agent Assistant unavailable.") }
  else
    match provider with
    | .raises msg =>
      let fb := fallback attempt_result attempt maxRetries
      { fb with
          source := "heuristic"
          framework_error := some ("Qwen-Agent call failed: " ++ msg) }
    | .returns raw =>
      match parse_response raw with
      | Except.ok (na, sr, delay) =>
        { next_action := na
          should_retry := sr
          retry_delay_seconds := delay
          source := "qwen-agent"
          framework_error := none
          raw_response := some raw }
      | Except.error msg =>
        let fb := fallback attempt_result attempt maxRetries
        { fb with
            source := "heuristic"
            framework_error := some ("Qwen-Agent call failed: " ++ msg) }

/-- The runner's annotation of a failed attempt
(`src/tester_agent/runner.py`, lines 48-51): `next_action` and its
source are copied from the decision; `framework_error` only when truthy. -/
def annotate_result (r : AttemptResult) (d : Decision) : AttemptResult :=
  { r with
      next_action := some d.next_action
      next_action_source := some d.source
      framework_error :=
        match d.framework_error with
        | some s => if s = "" then r.framework_error else some s
        | none => r.framework_error }

/-- The final report assembled by `RegistrationTestRunner.run`
(`src/tester_agent/runner.py`, lines 22-63); timing, URL and
`qwen_enabled` bookkeeping fields are environment echoes and elided. -/
structure Report where
  test_id : String
  max_retries : Nat
  attempts : List AttemptResult
  status : String
  successful_attempt : Option Nat
deriving Repr, DecidableEq

/-- The `for attempt in range(1, max_retries + 1)` loop of
`RegistrationTestRunner.run` (`src/tester_agent/runner.py`, lines
35-57), with `execA i` the outcome of `run_attempt` for attempt `i`
(identity generation and awaits folded into the environment) and
`decideA` the reasoner call.  Returns the accumulated attempts, the
status string, and the successful attempt index, starting from the
initial `status = "failed"` and absent `successful_attempt`. -/
def run_loop (execA : Nat → AttemptResult) (decideA : AttemptResult → Nat → Nat → Decision)
    (maxRetries : Nat) : Nat → Nat → List AttemptResult × String × Option Nat
  | 0, _ => ([], "failed", none)
  | remaining + 1, attempt =>
    let r := execA attempt
    if r.success then ([r], "success", some attempt)
    else if attempt < maxRetries then
      let d := decideA r attempt maxRetries
      let r' := annotate_result r d
      if d.should_retry then
        let rest := run_loop execA decideA maxRetries remaining (attempt + 1)
        (r' :: rest.1, rest.2.1, rest.2.2)
      else ([r'], "failed", none)
    else ([r], "failed", none)

/-- Translation of `RegistrationTestRunner.run`: the loop starts at
attempt 1 with `max_retries` iterations available. -/
def runner_run (execA : Nat → AttemptResult) (decideA : AttemptResult → Nat → Nat → Decision)
    (test_id : String) (maxRetries : Nat) : Report :=
  let res := run_loop execA decideA maxRetries maxRetries 1
  { test_id := test_id
    max_retries := maxRetries
    attempts := res.1
    status := res.2.1
    successful_attempt := res.2.2 }

/-- Sample attempt outcome: a timeout failure, as produced by the
`PlaywrightTimeoutError` handler. -/
def sampleFailTimeout : AttemptResult :=
  { attempt := 1
    timestamp := "2026-01-01T00:00:00"
    user_email := "test+aaaaaaaaaa@example.com"
    user_name := "Alice Smith"
    success := false
    reason := some "Timeout: page.goto: Timeout 30000ms exceeded"
    final_url := none
    dashboard_checks := none
    video_path := some "test_recordings/registration_test_x_attempt1.webm"
    next_action := none
    next_action_source := none
    framework_error := none }

/-- A second outcome agreeing with `sampleFailTimeout` on the reason but
differing elsewhere. -/
def sampleFailTimeoutAlt : AttemptResult :=
  { sampleFailTimeout with
      attempt := 2
      user_email := "test+bbbbbbbbbb@example.com"
      user_name := "Bob Jones"
      final_url := some "http://site.example/en/user/register" }

/-- Sample outcome whose reason names both a duplicate and a timeout. -/
def sampleFailDup : AttemptResult :=
  { sampleFailTimeout with reason := some "duplicate timeout" }

/-- Sample outcome whose reason carries the duplicate marker in
upper-case Cyrillic, which `str.lower` folds onto the rule's
lower-case marker. -/
def sampleFailCyr : AttemptResult :=
  { sampleFailTimeout with reason := some "Пользователь уже СУЩЕСТВУЕТ" }

/-- A free-text response whose brace span is the empty JSON object,
which Python's `if payload:` discards as falsy. -/
def rawEmptyObj : String := "x \x7b\x7d"

/-- Sample successful outcome. -/
def sampleSucc : AttemptResult :=
  { sampleFailTimeout with success := true, reason := none }

/-- A decision that always asks for a retry. -/
def retryDecision : Decision :=
  { next_action := "retry"
    should_retry := true
    retry_delay_seconds := 3
    source := "heuristic"
    framework_error := none
    raw_response := none }

/-- Reasoner state with delegation enabled and the assistant constructed,
the only state reachable with `enabled = true` through `__init__`. -/
def stEnabled : ReasonerState :=
  { enabled := true, assistantAvailable := true, assistantError := none }

/-- A configuration whose `retry_delay_seconds` setting (settable through
the `RETRY_DELAY_SECONDS` environment variable in `build_config`) differs
from the dataclass default. -/
def cfgC6 : AgentConfig :=
  { defaultAgentConfig "http://site.example" with retry_delay_seconds := 5 }

/-- A free-text provider response containing two well-formed JSON
objects, neither spanning the whole text. -/
def rawC8 : String := "\x7b\"a\":1\x7d \x7b\"b\":2\x7d"

/-- The first well-formed JSON object embedded in `rawC8`. -/
def subC8 : String := "\x7b\"a\":1\x7d"

/-- A free-text response whose first-to-last-brace span is well-formed. -/
def rawC8w : String := "xx \x7b\"a\": 2\x7d yy"

/-- A draw of Faker/uuid randomness for one identity. -/
def drawA : FakerDraw :=
  { fakeName := "Alice Smith"
    uuidHex := "0123456789abcdef0123456789abcdef"
    fakePassword := "Aa1!aaaaaaaaaa" }

/-- A different draw whose uuid hex agrees with `drawA` on the first ten
characters. -/
def drawB : FakerDraw :=
  { fakeName := "Bob Jones"
    uuidHex := "0123456789ffffffffffffffffffffff"
    fakePassword := "Bb2@bbbbbbbbbb" }

/-- A dashboard page satisfying all four structural checks. -/
def goodPage : PageState :=
  { modelDropdownCount := 1
    menuCountInFirst := 1
    directChildrenCount := 3
    fallbackTagCount := 0
    generateButtonCount := 1 }

/-- A page with none of the expected dashboard structure. -/
def emptyPage : PageState :=
  { modelDropdownCount := 0
    menuCountInFirst := 0
    directChildrenCount := 0
    fallbackTagCount := 0
    generateButtonCount := 0 }

/-- The default dashboard pattern `/en/generate` contains no regex
metacharacters, so `re.search` with it is a substring test. -/
def defaultUrlMatch : String → Bool := fun url => strContains url "/en/generate"

theorem string_data_append (s t : String) : (s ++ t).data = s.data ++ t.data := by
  cases s; cases t; rfl

theorem string_ext {s t : String} (h : s.data = t.data) : s = t := by
  cases s; cases t; exact congrArg String.mk h

theorem bool_if_not (b : Bool) (l : List String) :
    (if b = false then l else []) = (if !b then l else []) := by
  cases b <;> simp

theorem run_loop_length_le (e : Nat → AttemptResult)
    (d : AttemptResult → Nat → Nat → Decision) (N : Nat) :
    ∀ remaining attempt, (run_loop e d N remaining attempt).1.length ≤ remaining := by
  intro remaining
  induction remaining with
  | zero => intro a; simp [run_loop]
  | succ n ih =>
    intro a
    by_cases h1 : (e a).success = true
    · simp [run_loop, h1]
    · by_cases h2 : a < N
      · by_cases h3 : (d (e a) a N).should_retry = true
        · have := ih (a + 1)
          simp [run_loop, h1, h2, h3]
          omega
        · simp [run_loop, h1, h2, h3]
      · simp [run_loop, h1, h2]

theorem run_loop_status_iff (e : Nat → AttemptResult)
    (d : AttemptResult → Nat → Nat → Decision) (N : Nat) :
    ∀ remaining attempt,
      ((run_loop e d N remaining attempt).2.2.isSome = true ↔
       (run_loop e d N remaining attempt).2.1 = "success") := by
  intro remaining
  induction remaining with
  | zero => intro a; simp [run_loop]
  | succ n ih =>
    intro a
    by_cases h1 : (e a).success = true
    · simp [run_loop, h1]
    · by_cases h2 : a < N
      · by_cases h3 : (d (e a) a N).should_retry = true
        · simpa [run_loop, h1, h2, h3] using ih (a + 1)
        · simp [run_loop, h1, h2, h3]
      · simp [run_loop, h1, h2]

theorem run_loop_first_success (e : Nat → AttemptResult)
    (d : AttemptResult → Nat → Nat → Decision) (N : Nat) :
    ∀ remaining attempt k,
      attempt + remaining = N + 1 → attempt ≤ k → k ≤ N →
      (∀ i, attempt ≤ i → i < k →
        (e i).success = false ∧ (d (e i) i N).should_retry = true) →
      (e k).success = true →
      (run_loop e d N remaining attempt).1.length = k + 1 - attempt ∧
      (run_loop e d N remaining attempt).2.1 = "success" ∧
      (run_loop e d N remaining attempt).2.2 = some k := by
  intro remaining
  induction remaining with
  | zero => intro a k h1 h2 h3 _ _; omega
  | succ n ih =>
    intro a k h1 h2 h3 h4 h5
    by_cases hak : a = k
    · subst hak
      refine ⟨?_, ?_, ?_⟩ <;> simp [run_loop, h5]
    · have hlt : a < k := lt_of_le_of_ne h2 hak
      have hfail := h4 a (le_refl a) hlt
      have haN : a < N := lt_of_lt_of_le hlt h3
      obtain ⟨ihl, ihs, ihsi⟩ :=
        ih (a + 1) k (by omega) (by omega) h3 (fun i hi1 hi2 => h4 i (by omega) hi2) h5
      have hlen : (run_loop e d N (n + 1) a).1.length =
          (run_loop e d N n (a + 1)).1.length + 1 := by
        simp [run_loop, hfail.1, haN, hfail.2]
      have hst : (run_loop e d N (n + 1) a).2.1 = (run_loop e d N n (a + 1)).2.1 := by
        simp [run_loop, hfail.1, haN, hfail.2]
      have hsi : (run_loop e d N (n + 1) a).2.2 = (run_loop e d N n (a + 1)).2.2 := by
        simp [run_loop, hfail.1, haN, hfail.2]
      refine ⟨?_, ?_, ?_⟩
      · rw [hlen, ihl]; omega
      · rw [hst]; exact ihs
      · rw [hsi]; exact ihsi

theorem run_loop_all_fail (e : Nat → AttemptResult)
    (d : AttemptResult → Nat → Nat → Decision) (N : Nat) :
    ∀ remaining attempt,
      attempt + remaining = N + 1 →
      (∀ i, attempt ≤ i → i ≤ N → (e i).success = false) →
      (∀ i, attempt ≤ i → i < N → (d (e i) i N).should_retry = true) →
      (run_loop e d N remaining attempt).1.length = remaining ∧
      (run_loop e d N remaining attempt).2.1 = "failed" ∧
      (run_loop e d N remaining attempt).2.2 = none := by
  intro remaining
  induction remaining with
  | zero => intro a _ _ _; simp [run_loop]
  | succ n ih =>
    intro a h1 hfail hretry
    have hfa : (e a).success = false := hfail a (le_refl a) (by omega)
    by_cases h2 : a < N
    · have hra : (d (e a) a N).should_retry = true := hretry a (le_refl a) h2
      obtain ⟨ihl, ihs, ihsi⟩ :=
        ih (a + 1) (by omega) (fun i hi1 hi2 => hfail i (by omega) hi2)
          (fun i hi1 hi2 => hretry i (by omega) hi2)
      have hlen : (run_loop e d N (n + 1) a).1.length =
          (run_loop e d N n (a + 1)).1.length + 1 := by
        simp [run_loop, hfa, h2, hra]
      have hst : (run_loop e d N (n + 1) a).2.1 = (run_loop e d N n (a + 1)).2.1 := by
        simp [run_loop, hfa, h2, hra]
      have hsi : (run_loop e d N (n + 1) a).2.2 = (run_loop e d N n (a + 1)).2.2 := by
        simp [run_loop, hfa, h2, hra]
      refine ⟨?_, ?_, ?_⟩
      · rw [hlen, ihl]
      · rw [hst]; exact ihs
      · rw [hsi]; exact ihsi
    · have haN : a = N := by omega
      have hn0 : n = 0 := by omega
      subst hn0
      refine ⟨?_, ?_, ?_⟩ <;> simp [run_loop, hfa, h2]

theorem run_loop_stop_reason (e : Nat → AttemptResult)
    (d : AttemptResult → Nat → Nat → Decision) (N : Nat) :
    ∀ remaining attempt,
      attempt + remaining = N + 1 →
      (attempt + (run_loop e d N remaining attempt).1.length - 1 = N ∨
       (e (attempt + (run_loop e d N remaining attempt).1.length - 1)).success = true ∨
       ((e (attempt + (run_loop e d N remaining attempt).1.length - 1)).success = false ∧
        (d (e (attempt + (run_loop e d N remaining attempt).1.length - 1))
          (attempt + (run_loop e d N remaining attempt).1.length - 1) N).should_retry = false))
      ∧ (∀ i, attempt ≤ i → i + 1 < attempt + (run_loop e d N remaining attempt).1.length →
          (e i).success = false ∧ (d (e i) i N).should_retry = true) := by
  intro remaining
  induction remaining with
  | zero =>
    intro a h1
    constructor
    · left; simp [run_loop]; omega
    · intro i hi1 hi2
      simp [run_loop] at hi2
      omega
  | succ n ih =>
    intro a h1
    by_cases hs : (e a).success = true
    · constructor
      · right; left
        simp [run_loop, hs]
      · intro i hi1 hi2
        simp [run_loop, hs] at hi2
        omega
    · by_cases h2 : a < N
      · by_cases h3 : (d (e a) a N).should_retry = true
        · obtain ⟨ihstop, ihpre⟩ := ih (a + 1) (by omega)
          have hlen : (run_loop e d N (n + 1) a).1.length =
              (run_loop e d N n (a + 1)).1.length + 1 := by
            simp [run_loop, hs, h2, h3]
          constructor
          · rw [hlen]
            have harith : a + ((run_loop e d N n (a + 1)).1.length + 1) - 1 =
                (a + 1) + (run_loop e d N n (a + 1)).1.length - 1 := by omega
            rw [harith]
            exact ihstop
          · intro i hi1 hi2
            rw [hlen] at hi2
            by_cases hia : i = a
            · subst hia
              exact ⟨by simpa using hs, h3⟩
            · exact ihpre i (by omega) (by omega)
        · have hlen : (run_loop e d N (n + 1) a).1.length = 1 := by
            simp [run_loop, hs, h2, h3]
          constructor
          · right; right
            rw [hlen]
            have : a + 1 - 1 = a := by omega
            rw [this]
            exact ⟨by simpa using hs, by simpa using h3⟩
          · intro i hi1 hi2
            rw [hlen] at hi2
            omega
      · have hlen : (run_loop e d N (n + 1) a).1.length = 1 := by
          simp [run_loop, hs, h2]
        constructor
        · left
          rw [hlen]
          omega
        · intro i hi1 hi2
          rw [hlen] at hi2
          omega

/-- Claim C1: in any run where every attempt before `k` fails and is
granted a retry, and the `k`-th attempt (with `1 ≤ k ≤ max_retries`)
succeeds, the loop stops at attempt `k`: the report has exactly `k`
attempts, status `"success"` and `successful_attempt = k`; moreover, in
every run, `successful_attempt` is set iff the status is `"success"`. -/
theorem claim_C1 :
    (∀ (execA : Nat → AttemptResult) (decideA : AttemptResult → Nat → Nat → Decision)
        (test_id : String) (N k : Nat),
      1 ≤ k → k ≤ N →
      (∀ i, 1 ≤ i → i < k →
        (execA i).success = false ∧ (decideA (execA i) i N).should_retry = true) →
      (execA k).success = true →
      (runner_run execA decideA test_id N).attempts.length = k ∧
      (runner_run execA decideA test_id N).status = "success" ∧
      (runner_run execA decideA test_id N).successful_attempt = some k)
    ∧ (∀ (execA : Nat → AttemptResult) (decideA : AttemptResult → Nat → Nat → Decision)
        (test_id : String) (N : Nat),
      ((runner_run execA decideA test_id N).successful_attempt.isSome = true ↔
       (runner_run execA decideA test_id N).status = "success")) := by
  constructor
  · intro e d tid N k hk1 hk2 hpre hsucc
    obtain ⟨hl, hs, hsi⟩ :=
      run_loop_first_success e d N N 1 k (by omega) hk1 hk2 hpre hsucc
    refine ⟨?_, ?_, ?_⟩
    · show (run_loop e d N N 1).1.length = k
      rw [hl]; omega
    · exact hs
    · exact hsi
  · intro e d tid N
    exact run_loop_status_iff e d N N 1

/-- Witness for C1: three allowed attempts, the first fails with a
retry-granting decision, the second succeeds. -/
theorem claim_C1_witness :
    (runner_run (fun i => if i = 2 then sampleSucc else sampleFailTimeout)
      (fun _ _ _ => retryDecision) "registration_test_x" 3).attempts.length = 2 ∧
    (runner_run (fun i => if i = 2 then sampleSucc else sampleFailTimeout)
      (fun _ _ _ => retryDecision) "registration_test_x" 3).status = "success" ∧
    (runner_run (fun i => if i = 2 then sampleSucc else sampleFailTimeout)
      (fun _ _ _ => retryDecision) "registration_test_x" 3).successful_attempt = some 2 :=
  claim_C1.1 (fun i => if i = 2 then sampleSucc else sampleFailTimeout)
    (fun _ _ _ => retryDecision) "registration_test_x" 3 2 (by omega) (by omega)
    (fun i h1 h2 => by
      have hi : i = 1 := by omega
      subst hi
      exact ⟨rfl, rfl⟩)
    rfl

/-- Claim C2: the report never holds more than `max_retries` attempts;
when every allowed attempt fails and every decision grants a retry, the
report has exactly `max_retries` attempts and status `"failed"`; and the
loop always stops either at the bound, at a successful attempt, or at a
failed attempt whose decision withheld the retry, every earlier executed
attempt having failed with a retry granted. -/
theorem claim_C2 :
    (∀ (execA : Nat → AttemptResult) (decideA : AttemptResult → Nat → Nat → Decision)
        (test_id : String) (N : Nat),
      (runner_run execA decideA test_id N).attempts.length ≤ N)
    ∧ (∀ (execA : Nat → AttemptResult) (decideA : AttemptResult → Nat → Nat → Decision)
        (test_id : String) (N : Nat),
      (∀ i, 1 ≤ i → i ≤ N → (execA i).success = false) →
      (∀ i, 1 ≤ i → i < N → (decideA (execA i) i N).should_retry = true) →
      (runner_run execA decideA test_id N).attempts.length = N ∧
      (runner_run execA decideA test_id N).status = "failed")
    ∧ (∀ (execA : Nat → AttemptResult) (decideA : AttemptResult → Nat → Nat → Decision)
        (test_id : String) (N : Nat),
      ((runner_run execA decideA test_id N).attempts.length = N ∨
       (execA ((runner_run execA decideA test_id N).attempts.length)).success = true ∨
       ((execA ((runner_run execA decideA test_id N).attempts.length)).success = false ∧
        (decideA (execA ((runner_run execA decideA test_id N).attempts.length))
          ((runner_run execA decideA test_id N).attempts.length) N).should_retry = false))
      ∧ (∀ i, 1 ≤ i → i < (runner_run execA decideA test_id N).attempts.length →
          (execA i).success = false ∧ (decideA (execA i) i N).should_retry = true)) := by
  refine ⟨?_, ?_, ?_⟩
  · intro e d tid N
    exact run_loop_length_le e d N N 1
  · intro e d tid N hfail hretry
    obtain ⟨hl, hs, _⟩ := run_loop_all_fail e d N N 1 (by omega) hfail hretry
    exact ⟨hl, hs⟩
  · intro e d tid N
    obtain ⟨hstop, hpre⟩ := run_loop_stop_reason e d N N 1 (by omega)
    have harith : 1 + (run_loop e d N N 1).1.length - 1 = (run_loop e d N N 1).1.length := by
      omega
    rw [harith] at hstop
    constructor
    · exact hstop
    · intro i hi1 hi2
      have hrr : (runner_run e d tid N).attempts.length = (run_loop e d N N 1).1.length := rfl
      rw [hrr] at hi2
      exact hpre i hi1 (by omega)

/-- Witness for C2: two allowed attempts that both fail with retries
granted exhaust the bound. -/
theorem claim_C2_witness :
    (runner_run (fun _ => sampleFailTimeout) (fun _ _ _ => retryDecision)
      "registration_test_x" 2).attempts.length = 2 ∧
    (runner_run (fun _ => sampleFailTimeout) (fun _ _ _ => retryDecision)
      "registration_test_x" 2).status = "failed" :=
  claim_C2.2.1 (fun _ => sampleFailTimeout) (fun _ _ _ => retryDecision)
    "registration_test_x" 2 (fun _ _ _ => rfl) (fun _ _ _ => rfl)

/-- Claim C3: a `run_attempt` outcome carries a failure reason exactly
when it did not succeed; on the normal path, success is exactly the
conjunction of the dashboard-URL pattern match and the verifier's
structural check, and on the exception paths the attempt never
succeeds. -/
theorem claim_C3 :
    (∀ (urlMatches : String → Bool) (attempt : Nat) (timestamp : String)
        (user : UserData) (video_path : Option String) (env : AttemptEnv),
      ((run_attempt urlMatches attempt timestamp user video_path env).reason = none ↔
       (run_attempt urlMatches attempt timestamp user video_path env).success = true))
    ∧ (∀ (urlMatches : String → Bool) (attempt : Nat) (timestamp : String)
        (user : UserData) (video_path : Option String) (url : String)
        (page : PageState) (errorText : Option String),
      (run_attempt urlMatches attempt timestamp user video_path
        (.completed url page errorText)).success =
        (urlMatches url && (verify_dashboard page).ok))
    ∧ (∀ (urlMatches : String → Bool) (attempt : Nat) (timestamp : String)
        (user : UserData) (video_path : Option String) (msg : String),
      (run_attempt urlMatches attempt timestamp user video_path
        (.timeoutExc msg)).success = false ∧
      (run_attempt urlMatches attempt timestamp user video_path
        (.otherExc msg)).success = false) := by
  refine ⟨?_, ?_, ?_⟩
  · intro um a ts u vp env
    cases env with
    | timeoutExc msg => simp [run_attempt]
    | otherExc msg => simp [run_attempt]
    | completed url page et =>
      by_cases h1 : um url = true
      · by_cases h2 : (verify_dashboard page).ok = true
        · simp [run_attempt, h1, h2]
        · simp [run_attempt, h1, h2]
      · simp [run_attempt, h1]
  · intro um a ts u vp url page et
    rfl
  · intro um a ts u vp msg
    exact ⟨rfl, rfl⟩

/-- Witness for C3: a completed attempt on a dashboard URL with a fully
structured page succeeds. -/
theorem claim_C3_witness :
    (run_attempt defaultUrlMatch 1 "2026-01-01T00:00:00" (generate_user_data drawA)
      none (.completed "http://site.example/en/generate" goodPage none)).success =
      (defaultUrlMatch "http://site.example/en/generate" && (verify_dashboard goodPage).ok) :=
  claim_C3.2.1 defaultUrlMatch 1 "2026-01-01T00:00:00" (generate_user_data drawA)
    none "http://site.example/en/generate" goodPage none

/-- Claim C4: the verifier reports `ok = false` whenever any of the four
structural checks recorded in its details fails, and then its reason is
exactly the space-joined concatenation, in the fixed order, of one
sentence per failed check; no sentence appears for a passed check, and a
fully passing page gets no reason at all. -/
theorem claim_C4 :
    ∀ page : PageState,
      (((verify_dashboard page).model_select_dropdown_exists = false ∨
        (verify_dashboard page).dropdown_menu_count = 0 ∨
        (verify_dashboard page).dropdown_item_count < 2 ∨
        (verify_dashboard page).generate_button_exists = false) →
        (verify_dashboard page).ok = false)
    ∧ ((verify_dashboard page).ok = false →
        (verify_dashboard page).reason = some (String.intercalate " "
          ((if (verify_dashboard page).model_select_dropdown_exists = false
              then [missingDropdownMsg] else []) ++
           (if (verify_dashboard page).dropdown_menu_count = 0
              then [missingMenuMsg] else []) ++
           (if (verify_dashboard page).dropdown_item_count < 2
              then [fewItemsMsg] else []) ++
           (if (verify_dashboard page).generate_button_exists = false
              then [missingButtonMsg] else []))))
    ∧ ((verify_dashboard page).ok = true → (verify_dashboard page).reason = none) := by
  intro page
  cases hE : decide (0 < page.modelDropdownCount) with
  | false =>
    have hE0 : ¬0 < page.modelDropdownCount := of_decide_eq_false hE
    cases hG : decide (0 < page.generateButtonCount) with
    | false =>
      have hG0 : ¬0 < page.generateButtonCount := of_decide_eq_false hG
      refine ⟨?_, ?_, ?_⟩ <;> simp [verify_dashboard, hE, hG]
    | true =>
      have hG1 : 0 < page.generateButtonCount := of_decide_eq_true hG
      refine ⟨?_, ?_, ?_⟩ <;> simp [verify_dashboard, hE, hG]
  | true =>
    have hE1 : 0 < page.modelDropdownCount := of_decide_eq_true hE
    cases hM : decide (0 < page.menuCountInFirst) with
    | false =>
      have hM0 : page.menuCountInFirst = 0 := by
        have := of_decide_eq_false hM; omega
      cases hG : decide (0 < page.generateButtonCount) with
      | false =>
        refine ⟨?_, ?_, ?_⟩ <;> simp [verify_dashboard, hE, hG, hM0]
      | true =>
        refine ⟨?_, ?_, ?_⟩ <;> simp [verify_dashboard, hE, hG, hM0]
    | true =>
      have hM1 : 0 < page.menuCountInFirst := of_decide_eq_true hM
      cases hI : decide (2 ≤ (if page.directChildrenCount = 0
          then page.fallbackTagCount else page.directChildrenCount)) with
      | false =>
        have hI0 : (if page.directChildrenCount = 0
            then page.fallbackTagCount else page.directChildrenCount) < 2 := by
          have := of_decide_eq_false hI; omega
        have hIn : ¬2 ≤ (if page.directChildrenCount = 0
            then page.fallbackTagCount else page.directChildrenCount) := by omega
        cases hG : decide (0 < page.generateButtonCount) with
        | false =>
          refine ⟨?_, ?_, ?_⟩ <;> simp [verify_dashboard, hE, hG, hM, hM1, hI0, hIn]
        | true =>
          refine ⟨?_, ?_, ?_⟩ <;> simp [verify_dashboard, hE, hG, hM, hM1, hI0, hIn]
      | true =>
        have hI1 : 2 ≤ (if page.directChildrenCount = 0
            then page.fallbackTagCount else page.directChildrenCount) :=
          of_decide_eq_true hI
        cases hG : decide (0 < page.generateButtonCount) with
        | false =>
          have hG0 : ¬0 < page.generateButtonCount := of_decide_eq_false hG
          refine ⟨?_, ?_, ?_⟩ <;> simp [verify_dashboard, hE, hG, hM, hM1, hI1]
        | true =>
          have hG1 : 0 < page.generateButtonCount := of_decide_eq_true hG
          refine ⟨?_, ?_, ?_⟩ <;> simp [verify_dashboard, hE, hG, hM, hM1, hI1]
          omega

/-- Witness for C4: on an unstructured page all four checks fail and the
reason is the four sentences joined in order. -/
theorem claim_C4_witness :
    (verify_dashboard emptyPage).ok = false ∧
    (verify_dashboard emptyPage).reason = some (String.intercalate " "
      [missingDropdownMsg, missingMenuMsg, fewItemsMsg, missingButtonMsg]) := by
  constructor
  · exact (claim_C4 emptyPage).1 (Or.inl rfl)
  · have h := (claim_C4 emptyPage).2.1 ((claim_C4 emptyPage).1 (Or.inl rfl))
    simpa using h

/-- C5 counterexample: a reason containing both a duplicate marker and
"timeout" takes the duplicate rule, which is checked first, so the
advisory text does not recommend increasing the wait. -/
theorem claim_C5_counterexample :
    strContains (pyLower (sampleFailDup.reason.getD "")) "timeout" = true ∧
    (fallback sampleFailDup 1 3).next_action = duplicateMsg ∧
    duplicateMsg ≠ timeoutMsg :=
  ⟨rfl, rfl, by decide⟩

/-- Claim C5 (amended): the heuristic retries iff the attempt number is
below the bound; a reason containing (after `str.lower` folding) any of
the first rule's markers "already", "duplicate" or "существ" always gets
the new-identity advisory; a reason containing "timeout" or "timed out"
gets the increased-wait advisory provided none of those duplicate-rule
markers occurs, the rules being checked in that order. -/
theorem claim_C5 :
    ∀ (r : AttemptResult) (attempt maxAttempts : Nat),
      ((fallback r attempt maxAttempts).should_retry = true ↔ attempt < maxAttempts)
    ∧ ((strContains (pyLower (r.reason.getD "")) "already" = true ∨
        strContains (pyLower (r.reason.getD "")) "duplicate" = true ∨
        strContains (pyLower (r.reason.getD "")) "существ" = true) →
        (fallback r attempt maxAttempts).next_action = duplicateMsg)
    ∧ ((strContains (pyLower (r.reason.getD "")) "already" = false ∧
        strContains (pyLower (r.reason.getD "")) "duplicate" = false ∧
        strContains (pyLower (r.reason.getD "")) "существ" = false ∧
        (strContains (pyLower (r.reason.getD "")) "timeout" = true ∨
         strContains (pyLower (r.reason.getD "")) "timed out" = true)) →
        (fallback r attempt maxAttempts).next_action = timeoutMsg) := by
  intro r a m
  refine ⟨?_, ?_, ?_⟩
  · simp [fallback]
  · intro h
    rcases h with h | h | h <;> simp [fallback, fallback_message, h]
  · rintro ⟨h1, h2, h3, h4⟩
    rcases h4 with h4 | h4 <;> simp [fallback, fallback_message, h1, h2, h3, h4]

/-- Witness for C5: a pure timeout reason yields the increased-wait
advisory with a retry below the bound, and an upper-case Cyrillic
duplicate marker is folded by lowering and yields the new-identity
advisory. -/
theorem claim_C5_witness :
    (fallback sampleFailTimeout 1 3).next_action = timeoutMsg ∧
    (fallback sampleFailCyr 1 3).next_action = duplicateMsg ∧
    ((fallback sampleFailTimeout 1 3).should_retry = true ↔ 1 < 3) :=
  ⟨(claim_C5 sampleFailTimeout 1 3).2.2 ⟨rfl, rfl, rfl, Or.inl rfl⟩,
   (claim_C5 sampleFailCyr 1 3).2.1 (Or.inr (Or.inr rfl)),
   (claim_C5 sampleFailTimeout 1 3).1⟩

/-- C6 counterexample: with `retry_delay_seconds = 5` in effect (settable
through the `RETRY_DELAY_SECONDS` environment variable), the heuristic
decision still carries delay 3, not the configured value. -/
theorem claim_C6_counterexample :
    (fallback sampleFailTimeout 1 cfgC6.max_retries).retry_delay_seconds ≠
      (cfgC6.retry_delay_seconds : Int) := by
  decide

/-- Claim C6 (amended): the heuristic decision's `retry_delay_seconds` is
the literal constant 3 for every input; it coincides with the dataclass
default of `AgentConfig.retry_delay_seconds` but does not track the
setting in effect. -/
theorem claim_C6 :
    ∀ (r : AttemptResult) (attempt maxAttempts : Nat) (base_url : String),
      (fallback r attempt maxAttempts).retry_delay_seconds = 3 ∧
      ((defaultAgentConfig base_url).retry_delay_seconds : Int) = 3 := by
  intro r a m u
  exact ⟨rfl, rfl⟩

/-- Witness for C6 at a concrete input. -/
theorem claim_C6_witness :
    (fallback sampleFailTimeout 2 3).retry_delay_seconds = 3 ∧
    ((defaultAgentConfig "http://site.example").retry_delay_seconds : Int) = 3 :=
  claim_C6 sampleFailTimeout 2 3 "http://site.example"

/-- C7 counterexample: with delegation enabled, a provider response with
no extractable JSON is not treated as a failure: the decision keeps
`source = "qwen-agent"`, no `framework_error`, `should_retry = true` and
the raw text as advisory, diverging from the heuristic (which at the
bound would say `should_retry = false`). -/
theorem claim_C7_counterexample :
    tryExtractJson "no json here" = none ∧
    reasoner_decide stEnabled (.returns "no json here") sampleFailTimeout 3 3 =
      { next_action := "no json here"
        should_retry := true
        retry_delay_seconds := 3
        source := "qwen-agent"
        framework_error := none
        raw_response := some "no json here" } ∧
    (fallback sampleFailTimeout 3 3).should_retry = false :=
  ⟨rfl, rfl, rfl⟩

/-- Claim C7 (amended): when delegation is enabled and the provider call
raises, or the assistant is unavailable, `decide` returns the heuristic
decision unchanged except for the recorded `framework_error` (its
`source` already being `"heuristic"`); an unparsable-but-returned
response is instead used verbatim as the advisory text under source
`"qwen-agent"`. -/
theorem claim_C7 :
    ∀ (st : ReasonerState) (r : AttemptResult) (attempt maxAttempts : Nat) (msg : String),
      st.enabled = true →
      (st.assistantAvailable = true →
        reasoner_decide st (.raises msg) r attempt maxAttempts =
          { fallback r attempt maxAttempts with
              framework_error := some ("Qwen-Agent call failed: " ++ msg) })
    ∧ (st.assistantAvailable = false → ∀ p : ProviderBehavior,
        reasoner_decide st p r attempt maxAttempts =
          { fallback r attempt maxAttempts with
              framework_error := some
                (match st.assistantError with
                 | some s => if s = "" then "Qwen-Agent Assistant unavailable." else s
                 | none => "Qwen-Agent Assistant unavailable.") }) := by
  intro st r a m msg hen
  constructor
  · intro hav
    simp [reasoner_decide, hen, hav, fallback]
  · intro hav p
    cases p <;> simp [reasoner_decide, hen, hav, fallback]

/-- Witness for C7: an enabled reasoner whose provider raises falls back
to the heuristic plus the recorded error. -/
theorem claim_C7_witness :
    reasoner_decide stEnabled (.raises "connection refused") sampleFailTimeout 1 3 =
      { fallback sampleFailTimeout 1 3 with
          framework_error := some ("Qwen-Agent call failed: " ++ "connection refused") } :=
  (claim_C7 stEnabled sampleFailTimeout 1 3 "connection refused" rfl).1 rfl

/-- C8 counterexample: `rawC8` strips to itself, is not itself a JSON
object, and embeds the well-formed object `subC8`, yet the tolerant
parser extracts nothing, because the span from the first brace to the
last brace is not well-formed. -/
theorem claim_C8_counterexample :
    pyStrip rawC8 = rawC8 ∧
    pyJsonLoads rawC8 = none ∧
    strContains rawC8 subC8 = true ∧
    pyJsonLoads subC8 = some (Json.obj [("a", Json.num 1)]) ∧
    tryExtractJson rawC8 = none :=
  ⟨rfl, rfl, rfl, rfl, rfl⟩

/-- Claim C8 (amended): when strict parsing of the stripped response
yields a JSON object the tolerant parser returns it; otherwise it
considers exactly the single span from the first opening brace to the
last closing brace of the stripped response, succeeding iff that whole
span is a well-formed JSON object — it does not search for smaller
embedded objects.  The Decision fields are built from the extracted
object's `next_action`, `should_retry` and `retry_delay_seconds` keys
only when that object is non-empty; a `None` or empty payload is falsy
under `if payload:`, and the stripped raw text then becomes the advisory
with retry true and delay 3. -/
theorem claim_C8 :
    ∀ raw : String,
      (∀ kvs, pyJsonLoads (pyStrip raw) = some (Json.obj kvs) →
        tryExtractJson raw = some kvs)
    ∧ ((∀ kvs, pyJsonLoads (pyStrip raw) ≠ some (Json.obj kvs)) →
        tryExtractJson raw =
          (match searchBraceSpan (pyStrip raw) with
           | none => none
           | some sub =>
             (match pyJsonLoads sub with
              | some (Json.obj kvs) => some kvs
              | _ => none)))
    ∧ (∀ p rest, tryExtractJson raw = some (p :: rest) →
        parse_response raw = parse_payload (p :: rest))
    ∧ ((tryExtractJson raw = none ∨ tryExtractJson raw = some []) →
        parse_response raw =
          Except.ok (if pyStrip raw = "" then fallback_message ""
            else pyStrip raw, true, 3)) := by
  intro raw
  refine ⟨?_, ?_, ?_, ?_⟩
  · intro kvs h
    by_cases he : pyStrip raw = ""
    · rw [he] at h
      rw [show pyJsonLoads "" = none from rfl] at h
      exact Option.noConfusion h
    · simp only [tryExtractJson, he, if_false, h]
  · intro h
    by_cases he : pyStrip raw = ""
    · rw [show tryExtractJson raw = (if pyStrip raw = "" then none else
        match pyJsonLoads (pyStrip raw) with
        | some (Json.obj kvs) => some kvs
        | _ =>
          match searchBraceSpan (pyStrip raw) with
          | none => none
          | some sub =>
            match pyJsonLoads sub with
            | some (Json.obj kvs) => some kvs
            | _ => none) from rfl]
      rw [he]
      rfl
    · cases hload : pyJsonLoads (pyStrip raw) with
      | none => simp only [tryExtractJson, he, if_false, hload]
      | some v =>
        cases v with
        | obj kvs => exact absurd hload (h kvs)
        | null => simp only [tryExtractJson, he, if_false, hload]
        | bool b => simp only [tryExtractJson, he, if_false, hload]
        | num n => simp only [tryExtractJson, he, if_false, hload]
        | str s => simp only [tryExtractJson, he, if_false, hload]
        | arr xs => simp only [tryExtractJson, he, if_false, hload]
  · intro p rest h
    simp only [parse_response, h]
  · intro h
    rcases h with h | h <;> simp only [parse_response, h]

/-- Witness for C8: a response whose first-to-last-brace span is a
well-formed non-empty object is extracted, while a span holding only the
empty object is discarded as falsy and the raw text is used. -/
theorem claim_C8_witness :
    tryExtractJson rawC8w = some [("a", Json.num 2)] ∧
    parse_response rawEmptyObj = Except.ok ("x \x7b\x7d", true, 3) := by
  constructor
  · have h := (claim_C8 rawC8w).2.1 (fun kvs hc => by
      rw [show pyJsonLoads (pyStrip rawC8w) = none from rfl] at hc
      exact Option.noConfusion hc)
    rw [h]
    rfl
  · exact (claim_C8 rawEmptyObj).2.2.2 (Or.inr rfl)

/-- C9 counterexample: two distinct generator draws whose uuid hex
strings agree on the first ten characters produce distinct outcomes with
the same email, so email uniqueness is not unconditional. -/
theorem claim_C9_counterexample :
    generate_user_data drawA ≠ generate_user_data drawB ∧
    (generate_user_data drawA).email = (generate_user_data drawB).email := by
  constructor
  · decide
  · rfl

/-- Claim C9 (amended): within a run, two generated identities share an
email exactly when their uuid draws agree on the first ten hex
characters; uniqueness therefore holds whenever the truncated random
draws are distinct, and is not otherwise enforced by the code. -/
theorem claim_C9 :
    ∀ d1 d2 : FakerDraw,
      (generate_user_data d1).email = (generate_user_data d2).email ↔
        d1.uuidHex.take 10 = d2.uuidHex.take 10 := by
  intro d1 d2
  constructor
  · intro h
    have hdata := congrArg String.data h
    simp only [generate_user_data] at hdata
    rw [string_data_append, string_data_append, string_data_append,
      string_data_append] at hdata
    have h2 := List.append_cancel_right hdata
    have h3 := List.append_cancel_left h2
    exact string_ext h3
  · intro h
    simp [generate_user_data, h]

/-- Witness for C9: the two sample draws agree on the truncated uuid, so
their emails coincide. -/
theorem claim_C9_witness :
    (generate_user_data drawA).email = (generate_user_data drawB).email :=
  (claim_C9 drawA drawB).mpr rfl

/-- Claim C10: the heuristic decision depends on the attempt outcome
only through its `reason` field — outcomes agreeing on the reason get
identical decisions for the same attempt counters, whatever their other
fields. -/
theorem claim_C10 :
    ∀ (r1 r2 : AttemptResult) (attempt maxAttempts : Nat),
      r1.reason = r2.reason →
      fallback r1 attempt maxAttempts = fallback r2 attempt maxAttempts := by
  intro r1 r2 a m h
  simp [fallback, h]

/-- Witness for C10: outcomes differing in attempt number, email, name
and final URL but sharing the reason get the same decision. -/
theorem claim_C10_witness :
    fallback sampleFailTimeout 2 5 = fallback sampleFailTimeoutAlt 2 5 :=
  claim_C10 sampleFailTimeout sampleFailTimeoutAlt 2 5 rfl

end TesterAgent
